import Mathlib

/-!
Shallow embedding of `src/main.py` of the repository `filmplay/extrair-categoria`
(a FastAPI service that parses bank statements, categorizes each transaction and
returns a CSV).  Pure Python string primitives (`str.split`, `str.strip`,
`str.replace`, `str.lower`, `float(...)`) are modelled by structurally recursive
functions over `List Char`; the external collaborators — the Groq chat-completion
call and `dateutil.parser.parse` — are modelled as oracle parameters (a function
from the prompt to the response, resp. from the raw date string to an optional
parsed date), since their behaviour is outside this repository.
-/

namespace ExtrairCategoria

/-- Model of Python `str.split(sep)` for a one-character separator, on the
character list: keeps empty fields, `[]` input gives one empty field
(as `"".split(';') == ['']`). -/
def splitChars (sep : Char) : List Char → List (List Char)
  | [] => [[]]
  | c :: cs =>
    if c = sep then [] :: splitChars sep cs
    else
      match splitChars sep cs with
      | [] => [[c]]
      | g :: gs => (c :: g) :: gs

/-- Model of Python `str.split(sep)` for a one-character separator. -/
def pySplit (sep : Char) (s : String) : List String :=
  (splitChars sep s.data).map String.mk

/-- Characters removed by Python `str.strip()` (the ASCII whitespace ones;
the rarer Unicode whitespace code points do not occur in this development). -/
def isPySpace (c : Char) : Bool :=
  c = ' ' || c = '\t' || c = '\n' || c = '\r' || c = '\x0b' || c = '\x0c'

/-- Model of Python `str.strip()`: drop leading and trailing whitespace. -/
def pyStrip (s : String) : String :=
  String.mk (((s.data.dropWhile isPySpace).reverse.dropWhile isPySpace).reverse)

/-- Model of Python `str.replace(a, b)` for one-character arguments
(the source only uses `replace(',', '.')`). -/
def pyReplace (a b : Char) (s : String) : String :=
  String.mk (s.data.map (fun c => if c = a then b else c))

/-- Model of Python `str.lower()` on one character: ASCII letters and the
Latin-1 accented capitals (U+00C0–U+00DE except the multiplication sign)
map down by 32; everything else is unchanged.  This covers every character
the program compares case-insensitively (`transferência`, `entrada`, `itau`). -/
def pyLowerChar (c : Char) : Char :=
  if 'A' ≤ c && c ≤ 'Z' then Char.ofNat (c.toNat + 32)
  else if 0xC0 ≤ c.toNat && c.toNat ≤ 0xDE && c.toNat ≠ 0xD7 then Char.ofNat (c.toNat + 32)
  else c

/-- Model of Python `str.lower()`. -/
def pyLower (s : String) : String :=
  String.mk (s.data.map pyLowerChar)

/-- Digit test for ASCII decimal digits. -/
def isAsciiDigit (c : Char) : Bool := '0' ≤ c && c ≤ '9'

/-- Value of a list of ASCII decimal digits. -/
def digitsToNat (cs : List Char) : Nat :=
  cs.foldl (fun a c => a * 10 + (c.toNat - 48)) 0

/-- Parse a non-empty all-digit character list. -/
def parseNatDigits (cs : List Char) : Option Nat :=
  if cs ≠ [] && cs.all isAsciiDigit then some (digitsToNat cs) else none

/-- Exact value of a Python float produced by parsing a plain decimal literal:
the rational `mant / 10 ^ exp10`.  Kept unnormalized so that every model
function stays kernel-computable. -/
structure PyFloat where
  mant : Int
  exp10 : Nat
deriving DecidableEq

/-- Numeric value of a parsed float, as a rational. -/
def PyFloat.toRat (v : PyFloat) : Rat := (v.mant : Rat) / (10 : Rat) ^ v.exp10

/-- Model of Python `float(s)` on plain decimal literals: optional surrounding
whitespace, optional sign, digits with at most one decimal point and at least
one digit.  (The exponent, `inf`/`nan` and underscore forms accepted by Python
never arise from the statements this service parses and are outside the model.) -/
def pyFloat (s : String) : Option PyFloat :=
  let cs := (pyStrip s).data
  let signBody : Int × List Char :=
    match cs with
    | '-' :: rest => (-1, rest)
    | '+' :: rest => (1, rest)
    | _ => (1, cs)
  match splitChars '.' signBody.2 with
  | [ip] =>
      match parseNatDigits ip with
      | some n => some ⟨signBody.1 * n, 0⟩
      | none => none
  | [ip, fp] =>
      if ip.isEmpty && fp.isEmpty then none
      else
        match (if ip.isEmpty then some 0 else parseNatDigits ip),
              (if fp.isEmpty then some 0 else parseNatDigits fp) with
        | some i, some f => some ⟨signBody.1 * (i * 10 ^ fp.length + f), fp.length⟩
        | _, _ => none
  | _ => none

/-- Rendering of a Python `None` inside an f-string (`f"{None}"` is `"None"`);
a present string renders as itself. -/
def pyOptStr : Option String → String
  | some s => s
  | none => "None"

/-- A calendar date as produced by `dateutil.parser.parse` (only the fields
that `strftime("%Y/%m/%d")` consumes). -/
structure PyDate where
  year : Nat
  month : Nat
  day : Nat
deriving DecidableEq

/-- Zero-pad a number to a minimum width, as `strftime` does. -/
def padZero (w n : Nat) : String :=
  String.mk (List.replicate (w - (toString n).length) '0') ++ toString n

/-- Model of `dt.strftime("%Y/%m/%d")`: the single canonical date layout. -/
def fmtDate (d : PyDate) : String :=
  padZero 4 d.year ++ "/" ++ padZero 2 d.month ++ "/" ++ padZero 2 d.day

/-- The oracle type for `dateutil.parser.parse(data, dayfirst=True, fuzzy=True)`:
`none` models the library raising (any exception), `some d` a successful parse. -/
abbrev DateOracle := String → Option PyDate

/-- Source: `_formatar_data` (src/main.py:78-86).  Converts any date to the
`YYYY/MM/DD` layout; if the library parse raises, the original string is
returned unchanged.  Total by construction — the `except` clause catches
every exception. -/
def _formatar_data (dparse : DateOracle) (data : String) : String :=
  match dparse data with
  | some dt => fmtDate dt
  | none => data

/-- Source: `CATEGORY_KEYWORDS` (src/main.py:29-67), transcribed in
declaration order. -/
def CATEGORY_KEYWORDS : List (String × List String) :=
  [ ("Alimentação",
     ["salário", "supermercado", "mercado", "padaria", "ataca", "atacadão",
      "assai", "hortifruti", "açougue", "Savegnago"]),
    ("Transporte",
     ["posto", "combustível", "uber", "99", "estacionamento", "pedágio"]),
    ("Moradia",
     ["aluguel", "condomínio", "imobiliária"]),
    ("Utilidades",
     ["luz", "água", "gás", "energia", "sanepar", "copel"]),
    ("Saúde",
     ["drogaria", "farmácia", "hospital", "farma", "clínica", "laboratório",
      "plano de saúde"]),
    ("Educação",
     ["escola", "universidade", "curso"]),
    ("Contas",
     ["tarifa", "boleto", "fatura", "pagamento"]),
    ("Entretenimento",
     ["netflix", "cinema", "restaurante", "parque", "mc donalds"]),
    ("Investimentos",
     ["renda fixa", "ações", "resgate"]),
    ("Doações",
     ["igreja", "ong", "contribuição"]),
    ("Renda",
     ["recebimento", "rendimento"]),
    ("Transferência",
     ["pix", "transferência", "enviada"]) ]

/-- The user prompt built in `classificar_transacao` (src/main.py:90-97):
only the KEYS of the keyword table enter it, via
`', '.join(CATEGORY_KEYWORDS.keys())`. -/
def buildPrompt (kw : List (String × List String)) (descricao tipo : String) : String :=
  "Você é um assistente especializado em finanças. " ++
  "Classifique a seguinte transação bancária em uma das categorias: " ++
  String.intercalate ", " (kw.map Prod.fst) ++ ", Outros.\n" ++
  "Descrição da transação: \x27" ++ descricao ++ "\x27\n" ++
  "Tipo da transação: \x27" ++ tipo ++ "\x27\n" ++
  "Responda apenas com o nome da categoria."

/-- Errors the endpoint can signal: a raised `HTTPException(status, detail)`,
the uncaught `IndexError` from `resultado[0]` on an empty result, the uncaught
`AttributeError` from `None.replace` when a short CSV row leaves `row['Valor']`
as `None`, and the uncaught pydantic `ValidationError` when a required string
field of `TransacaoCategorizada` receives `None`. -/
inductive Err where
  | httpError (status : Nat) (detail : String)
  | indexError
  | attributeError
  | validationError
deriving DecidableEq

deriving instance DecidableEq for Except

/-- The oracle type for the Groq chat-completion call: the argument is the
user prompt; `.ok content` models `resposta.choices[0].message.content`,
`.error msg` models the call raising an exception rendering as `msg`. -/
abbrev GroqOracle := String → Except String String

/-- Source: `classificar_transacao` (src/main.py:89-116).  Builds the prompt,
queries the oracle, strips the answer; a `transferência` answer (lowercased)
is specialized by the transaction direction; an empty answer becomes
`"Outros"`; an oracle failure is re-raised as a 500 `HTTPException`. -/
def classificar_transacao (kw : List (String × List String)) (oracle : GroqOracle)
    (descricao tipo : String) : Except Err String :=
  let prompt := buildPrompt kw descricao tipo
  match oracle prompt with
  | .error e => .error (.httpError 500 ("Erro na Groq API: " ++ e))
  | .ok content =>
    let categoria := pyStrip content
    if pyLower categoria = "transferência" then
      .ok (if pyLower tipo = "entrada" then "Transferência recebida"
           else "Transferência enviada")
    else if categoria = "" then .ok "Outros"
    else .ok categoria

/-- Source: the pydantic model `TransacaoCategorizada` (src/main.py:69-76),
with the float `valor` carried as its exact decimal value. -/
structure TransacaoCategorizada where
  descricao : String
  valor : PyFloat
  tipo : String
  categoria : String
  data_transacao : String
  id_transacao : Option String
  portador : String
deriving DecidableEq

/-- One iteration of the Itaú loop (src/main.py:135-156) on the line with
1-based number `ln`: split on `';'`, strip each field; a field count other
than 3 is a silent skip (`.ok none`); otherwise parse the amount (failure is
a 400 with the line number), derive the direction, classify, and build the
transaction.  `.ok (some t)` appends `t` to the batch. -/
def itauLine (kw : List (String × List String)) (oracle : GroqOracle)
    (dparse : DateOracle) (portador : String) (ln : Nat) (line : String) :
    Except Err (Option TransacaoCategorizada) :=
  match (pySplit ';' line).map pyStrip with
  | [data, descricao, raw_valor] =>
    match pyFloat (pyReplace ',' '.' raw_valor) with
    | none => .error (.httpError 400 ("Valor inválido na linha " ++ toString ln))
    | some valor =>
      let tipo := if 0 < valor.mant then "Entrada" else "Saída"
      match classificar_transacao kw oracle descricao tipo with
      | .error e => .error e
      | .ok categoria =>
        .ok (some { descricao := descricao, valor := valor, tipo := tipo,
                    categoria := categoria,
                    data_transacao := _formatar_data dparse data,
                    id_transacao := none, portador := portador })
  | _ => .ok none

/-- The Itaú `for ln, line in enumerate(..., start=1)` loop (src/main.py:135-156):
processes the lines in order starting at line number `ln`, accumulating the
transactions in input order; any raised exception aborts the whole loop. -/
def itauLoop (kw : List (String × List String)) (oracle : GroqOracle)
    (dparse : DateOracle) (portador : String) (ln : Nat) :
    List String → Except Err (List TransacaoCategorizada)
  | [] => .ok []
  | line :: rest =>
    match itauLine kw oracle dparse portador ln line with
    | .error e => .error e
    | .ok none => itauLoop kw oracle dparse portador (ln + 1) rest
    | .ok (some t) =>
      match itauLoop kw oracle dparse portador (ln + 1) rest with
      | .error e => .error e
      | .ok ts => .ok (t :: ts)

/-- Source: `required = {'Data', 'Descrição', 'Valor', 'Identificador'}`
(src/main.py:159), in declaration order. -/
def nubankRequired : List String := ["Data", "Descrição", "Valor", "Identificador"]

/-- The `csv.DictReader` field names: the first line split on `','`
(an absent or empty first line gives no field names, as `reader.fieldnames or []`). -/
def nubankFieldnames (lines : List String) : List String :=
  match lines with
  | [] => []
  | h :: _ => if h = "" then [] else pySplit ',' h

/-- The set difference `required - set(reader.fieldnames or [])`
(src/main.py:161), as a list in the declaration order of `required`.
(Python materializes it in hash order; only its membership is observable
through the error message.) -/
def nubankFaltando (lines : List String) : List String :=
  nubankRequired.filter (fun f => decide (f ∉ nubankFieldnames lines))

/-- The last position of `name` in the field-name list, or `none`. -/
def lastIdxOf (name : String) : List String → Option Nat
  | [] => none
  | x :: xs =>
    match lastIdxOf name xs with
    | some j => some (j + 1)
    | none => if x = name then some 0 else none

/-- The value `dict(zip(fieldnames, row))[name]` after `csv.DictReader`'s
`restval` fill: the cell at the last position of `name` among the field names,
or `none` when the row is too short to reach it (Python stores `None`). -/
def getField (fn row : List String) (name : String) : Option String :=
  (lastIdxOf name fn).bind fun j => row.get? j

/-- One iteration of the Nubank loop (src/main.py:164-181) on the data row at
physical line number `ln`: look up `Valor` (a `None` cell raises
`AttributeError` at `.replace`), parse it (failure is a 400 with
`reader.line_num`), derive the direction, classify (a `None` description
renders as `"None"` in the prompt), and build the transaction — pydantic
rejects a `None` description or date. -/
def nubankRow (kw : List (String × List String)) (oracle : GroqOracle)
    (dparse : DateOracle) (portador : String) (fn : List String) (ln : Nat)
    (line : String) : Except Err TransacaoCategorizada :=
  let row := pySplit ',' line
  match getField fn row "Valor" with
  | none => .error .attributeError
  | some rawValor =>
    match pyFloat (pyReplace ',' '.' rawValor) with
    | none => .error (.httpError 400 ("Valor inválido na linha " ++ toString ln))
    | some valor =>
      let tipo := if 0 < valor.mant then "Entrada" else "Saída"
      match classificar_transacao kw oracle
              (pyOptStr (getField fn row "Descrição")) tipo with
      | .error e => .error e
      | .ok categoria =>
        match getField fn row "Descrição", getField fn row "Data" with
        | some descricao, some data =>
          .ok { descricao := descricao, valor := valor, tipo := tipo,
                categoria := categoria,
                data_transacao := _formatar_data dparse data,
                id_transacao := getField fn row "Identificador",
                portador := portador }
        | _, _ => .error .validationError

/-- The Nubank `for row in reader` loop (src/main.py:164-181): `ln` is
`reader.line_num` for the next physical line; blank lines are skipped by the
csv reader but still advance the line count; any raised exception aborts the
whole loop. -/
def nubankLoop (kw : List (String × List String)) (oracle : GroqOracle)
    (dparse : DateOracle) (portador : String) (fn : List String) (ln : Nat) :
    List String → Except Err (List TransacaoCategorizada)
  | [] => .ok []
  | line :: rest =>
    if line = "" then nubankLoop kw oracle dparse portador fn (ln + 1) rest
    else
      match nubankRow kw oracle dparse portador fn ln line with
      | .error e => .error e
      | .ok t =>
        match nubankLoop kw oracle dparse portador fn (ln + 1) rest with
        | .error e => .error e
        | .ok ts => .ok (t :: ts)

/-- The whole non-Itaú branch (src/main.py:157-181): validate the header —
missing required columns raise a 400 naming them — then run the row loop on
the data lines, whose first physical line number is 2. -/
def nubankParse (kw : List (String × List String)) (oracle : GroqOracle)
    (dparse : DateOracle) (portador : String) (lines : List String) :
    Except Err (List TransacaoCategorizada) :=
  if nubankFaltando lines ≠ [] then
    .error (.httpError 400
      ("Colunas faltando: " ++ String.intercalate ", " (nubankFaltando lines)))
  else
    nubankLoop kw oracle dparse portador (nubankFieldnames lines) 2 lines.tail

/-- Source: the `/categorizar` endpoint body (src/main.py:122-193), modulo the
HTTP framing.  `lines` is `text.splitlines()`.  `banco.lower() == 'itau'`
selects the fixed-column parser; EVERY other selector takes the csv branch.
After the loop, `csv.DictWriter(output, fieldnames=resultado[0].dict().keys())`
indexes the first result, so an empty batch raises an uncaught `IndexError`;
otherwise the transaction list is serialized and returned. -/
def categorizar (kw : List (String × List String)) (oracle : GroqOracle)
    (dparse : DateOracle) (banco : String) (lines : List String)
    (portador : String) : Except Err (List TransacaoCategorizada) :=
  match (if pyLower banco = "itau"
         then itauLoop kw oracle dparse portador 1 lines
         else nubankParse kw oracle dparse portador lines) with
  | .error e => .error e
  | .ok resultado =>
    if resultado.isEmpty then .error .indexError else .ok resultado

/-! Concrete fixtures used by the closed witness theorems. -/

/-- A Groq oracle that always answers `Outros`. -/
def oracleOutros : GroqOracle := fun _ => .ok "Outros"

/-- A Groq oracle that always answers the transfer category. -/
def oracleTransfer : GroqOracle := fun _ => .ok "Transferência"

/-- A date oracle for which every parse fails. -/
def dateNone : DateOracle := fun _ => none

/-- A date oracle that always parses to 2024-03-04. -/
def dateFixed : DateOracle := fun _ => some ⟨2024, 3, 4⟩

/-- The keyword table with the same keys as `CATEGORY_KEYWORDS` but every
keyword list emptied. -/
def kwKeysOnly : List (String × List String) :=
  CATEGORY_KEYWORDS.map (fun p => (p.1, []))

/-- A well-formed Nubank-format input: the required header and one data row. -/
def sampleNubankLines : List String :=
  ["Data,Descrição,Valor,Identificador", "2024-01-01,x,5,abc"]

/-! Helper lemmas. -/

/-- The float value `mant / 10 ^ exp10` is positive exactly when the mantissa is. -/
theorem PyFloat.pos_toRat (v : PyFloat) : 0 < v.toRat ↔ 0 < v.mant := by
  unfold PyFloat.toRat
  rw [div_pos_iff]
  have h10 : (0 : Rat) < (10 : Rat) ^ v.exp10 := pow_pos (by norm_num) _
  constructor
  · rintro (⟨h, -⟩ | ⟨-, h⟩)
    · exact_mod_cast h
    · exact absurd h (not_lt.mpr h10.le)
  · intro h
    exact Or.inl ⟨by exact_mod_cast h, h10⟩

/-- C7: the date normalizer is total (it is a plain Lean function, the
source's `except` catches every exception): when the library parse fails it
returns its input unchanged, and when the parse succeeds it returns the date
rendered in the single fixed `YYYY/MM/DD` layout. -/
theorem claimC7 (dparse : DateOracle) (s : String) :
    (dparse s = none → _formatar_data dparse s = s) ∧
    (∀ dt : PyDate, dparse s = some dt → _formatar_data dparse s = fmtDate dt) := by
  constructor
  · intro h
    unfold _formatar_data
    rw [h]
  · intro dt h
    unfold _formatar_data
    rw [h]

/-- Witness for C7 at concrete oracles and input. -/
theorem claimC7_witness :
    _formatar_data dateNone "31/12/2024" = "31/12/2024" ∧
    _formatar_data dateFixed "raw" = fmtDate ⟨2024, 3, 4⟩ := by
  exact ⟨(claimC7 dateNone "31/12/2024").1 rfl,
         (claimC7 dateFixed "raw").2 ⟨2024, 3, 4⟩ rfl⟩

/-- C4: when the Groq oracle's (stripped, lowercased) answer is the transfer
category, the final category is specialized by the row's direction: the
inflow direction `"Entrada"` yields `"Transferência recebida"` and the
outflow direction `"Saída"` yields `"Transferência enviada"`. -/
theorem claimC4 (kw : List (String × List String)) (o : GroqOracle)
    (descricao : String) :
    (∀ c, o (buildPrompt kw descricao "Entrada") = .ok c →
      pyLower (pyStrip c) = "transferência" →
      classificar_transacao kw o descricao "Entrada" = .ok "Transferência recebida") ∧
    (∀ c, o (buildPrompt kw descricao "Saída") = .ok c →
      pyLower (pyStrip c) = "transferência" →
      classificar_transacao kw o descricao "Saída" = .ok "Transferência enviada") := by
  constructor
  · intro c hc hlow
    unfold classificar_transacao
    simp only [hc, hlow]
    rw [if_pos trivial]
    decide
  · intro c hc hlow
    unfold classificar_transacao
    simp only [hc, hlow]
    rw [if_pos trivial]
    decide

/-- Witness for C4: the constant transfer-answer oracle on both directions. -/
theorem claimC4_witness :
    classificar_transacao CATEGORY_KEYWORDS oracleTransfer "x" "Entrada" =
      .ok "Transferência recebida" ∧
    classificar_transacao CATEGORY_KEYWORDS oracleTransfer "x" "Saída" =
      .ok "Transferência enviada" := by
  exact ⟨(claimC4 CATEGORY_KEYWORDS oracleTransfer "x").1 "Transferência" rfl (by decide),
         (claimC4 CATEGORY_KEYWORDS oracleTransfer "x").2 "Transferência" rfl (by decide)⟩

/-- C1 (amended): the format selector is only inspected through
`banco.lower() == 'itau'`; every selector other than `itau` — recognized or
not — is processed by the header-driven csv branch, exactly as the selector
`nubank` would be.  There is no unknown-format abort. -/
theorem claimC1 (kw : List (String × List String)) (o : GroqOracle)
    (d : DateOracle) (banco : String) (lines : List String) (p : String)
    (h : pyLower banco ≠ "itau") :
    categorizar kw o d banco lines p = categorizar kw o d "nubank" lines p := by
  unfold categorizar
  rw [if_neg h, if_neg (by decide : ¬ pyLower "nubank" = "itau")]

/-- Counterexample to C1 as stated: the unrecognized selector `bradesco`
does not abort — the input is parsed under the csv (Format B) parser and a
transaction is produced. -/
theorem claimC1_counterexample :
    categorizar CATEGORY_KEYWORDS oracleOutros dateNone "bradesco"
      sampleNubankLines "p" =
    .ok [{ descricao := "x", valor := ⟨5, 0⟩, tipo := "Entrada",
           categoria := "Outros", data_transacao := "2024-01-01",
           id_transacao := some "abc", portador := "p" }] := by
  decide

/-- Witness for the amended C1 at the concrete selector `bradesco`. -/
theorem claimC1_witness :
    categorizar CATEGORY_KEYWORDS oracleOutros dateNone "bradesco"
      sampleNubankLines "p" =
    categorizar CATEGORY_KEYWORDS oracleOutros dateNone "nubank"
      sampleNubankLines "p" :=
  claimC1 CATEGORY_KEYWORDS oracleOutros dateNone "bradesco"
    sampleNubankLines "p" (by decide)

/-- An Itaú line whose stripped field count is not 3 parses to a skip. -/
theorem itauLine_skip (kw : List (String × List String)) (o : GroqOracle)
    (d : DateOracle) (p : String) (ln : Nat) (line : String)
    (h : ((pySplit ';' line).map pyStrip).length ≠ 3) :
    itauLine kw o d p ln line = .ok none := by
  unfold itauLine
  split
  · next data descricao raw_valor heq =>
    rw [heq] at h
    simp at h
  · rfl

/-- An Itaú line with exactly 3 stripped fields never parses to a skip. -/
theorem itauLine_no_skip (kw : List (String × List String)) (o : GroqOracle)
    (d : DateOracle) (p : String) (ln : Nat) (line : String)
    (h : ((pySplit ';' line).map pyStrip).length = 3) :
    itauLine kw o d p ln line ≠ .ok none := by
  unfold itauLine
  split
  · next data descricao raw_valor heq =>
    split
    · simp
    · split
      · rcases hcl : classificar_transacao kw o descricao "Entrada" with e | cat <;>
          simp [hcl]
      · rcases hcl : classificar_transacao kw o descricao "Saída" with e | cat <;>
          simp [hcl]
  · next hne =>
    obtain ⟨a, b, c, habc⟩ := List.length_eq_three.mp h
    exact absurd habc (hne a b c)

/-- Skipped lines disappear from the Itaú loop while the line counter still
advances. -/
theorem itauLoop_cons_skip (kw : List (String × List String)) (o : GroqOracle)
    (d : DateOracle) (p : String) (ln : Nat) (line : String)
    (rest : List String)
    (h : ((pySplit ';' line).map pyStrip).length ≠ 3) :
    itauLoop kw o d p ln (line :: rest) = itauLoop kw o d p (ln + 1) rest := by
  rw [itauLoop, itauLine_skip kw o d p ln line h]

/-- C6: a Format A line whose delimiter-split (stripped) field count is not
exactly 3 is silently skipped — the loop continues on the remaining lines with
no transaction and no error — while a line with exactly 3 fields is never
skipped (it proceeds to amount parsing and classification). -/
theorem claimC6 :
    (∀ (kw : List (String × List String)) (o : GroqOracle) (d : DateOracle)
       (p : String) (ln : Nat) (line : String) (rest : List String),
       ((pySplit ';' line).map pyStrip).length ≠ 3 →
       itauLoop kw o d p ln (line :: rest) = itauLoop kw o d p (ln + 1) rest) ∧
    (∀ (kw : List (String × List String)) (o : GroqOracle) (d : DateOracle)
       (p : String) (ln : Nat) (line : String),
       ((pySplit ';' line).map pyStrip).length = 3 →
       itauLine kw o d p ln line ≠ .ok none) :=
  ⟨fun kw o d p ln line rest h => itauLoop_cons_skip kw o d p ln line rest h,
   fun kw o d p ln line h => itauLine_no_skip kw o d p ln line h⟩

/-- Witness for C6: a 2-field line is skipped, a 3-field line is not. -/
theorem claimC6_witness :
    itauLoop CATEGORY_KEYWORDS oracleOutros dateNone "p" 1 ["a;b"] =
      itauLoop CATEGORY_KEYWORDS oracleOutros dateNone "p" 2 [] ∧
    itauLine CATEGORY_KEYWORDS oracleOutros dateNone "p" 1 "a;b;5" ≠ .ok none :=
  ⟨claimC6.1 CATEGORY_KEYWORDS oracleOutros dateNone "p" 1 "a;b" [] (by decide),
   claimC6.2 CATEGORY_KEYWORDS oracleOutros dateNone "p" 1 "a;b;5" (by decide)⟩

/-- C5: a non-Itaú invocation whose header misses required columns aborts with
the single 400 error listing the missing columns; the error is independent of
the data rows and of the classifier (both are arbitrary here, so no row was
processed), and every missing required field is named in the list the message
is joined from. -/
theorem claimC5 (kw : List (String × List String)) (o : GroqOracle)
    (d : DateOracle) (banco : String) (lines : List String) (p : String)
    (hb : pyLower banco ≠ "itau") (hf : nubankFaltando lines ≠ []) :
    categorizar kw o d banco lines p =
      .error (.httpError 400
        ("Colunas faltando: " ++ String.intercalate ", " (nubankFaltando lines))) ∧
    ∀ f ∈ nubankRequired, f ∉ nubankFieldnames lines → f ∈ nubankFaltando lines := by
  constructor
  · unfold categorizar
    rw [if_neg hb]
    unfold nubankParse
    rw [if_pos hf]
  · intro f hreq hnot
    simp only [nubankFaltando, List.mem_filter, decide_eq_true_eq]
    exact ⟨hreq, hnot⟩

/-- Witness for C5: a header with only `Data` and `Valor` aborts naming
`Descrição` and `Identificador`, with a data row present but never read. -/
theorem claimC5_witness :
    categorizar CATEGORY_KEYWORDS oracleOutros dateNone "nubank"
      ["Data,Valor", "junk"] "p" =
      .error (.httpError 400
        ("Colunas faltando: " ++
          String.intercalate ", " (nubankFaltando ["Data,Valor", "junk"]))) ∧
    ("Descrição" ∈ nubankFaltando ["Data,Valor", "junk"] ∧
     "Identificador" ∈ nubankFaltando ["Data,Valor", "junk"]) :=
  ⟨(claimC5 CATEGORY_KEYWORDS oracleOutros dateNone "nubank"
      ["Data,Valor", "junk"] "p" (by decide) (by decide)).1,
   (claimC5 CATEGORY_KEYWORDS oracleOutros dateNone "nubank"
      ["Data,Valor", "junk"] "p" (by decide) (by decide)).2 "Descrição"
      (by decide) (by decide),
   (claimC5 CATEGORY_KEYWORDS oracleOutros dateNone "nubank"
      ["Data,Valor", "junk"] "p" (by decide) (by decide)).2 "Identificador"
      (by decide) (by decide)⟩

/-- Inversion for a successful Itaú line: the line split into exactly 3
stripped fields and the transaction is built from them, with the direction
computed from the sign of the parsed amount. -/
theorem itauLine_shape (kw : List (String × List String)) (o : GroqOracle)
    (d : DateOracle) (p : String) (ln : Nat) (line : String)
    (t : TransacaoCategorizada)
    (h : itauLine kw o d p ln line = .ok (some t)) :
    ∃ data descricao raw_valor valor categoria,
      (pySplit ';' line).map pyStrip = [data, descricao, raw_valor] ∧
      pyFloat (pyReplace ',' '.' raw_valor) = some valor ∧
      t = { descricao := descricao, valor := valor,
            tipo := if 0 < valor.mant then "Entrada" else "Saída",
            categoria := categoria,
            data_transacao := _formatar_data d data,
            id_transacao := none, portador := p } := by
  unfold itauLine at h
  split at h
  · next data descricao raw_valor heq =>
    split at h
    · simp at h
    · next valor hval =>
      split at h
      · next hpos =>
        rcases hcl : classificar_transacao kw o descricao "Entrada" with e | cat <;>
          simp only [hcl] at h
        · simp at h
        · simp only [Except.ok.injEq, Option.some.injEq] at h
          exact ⟨data, descricao, raw_valor, valor, cat, heq, hval,
                 by rw [← h, if_pos hpos]⟩
      · next hneg =>
        rcases hcl : classificar_transacao kw o descricao "Saída" with e | cat <;>
          simp only [hcl] at h
        · simp at h
        · simp only [Except.ok.injEq, Option.some.injEq] at h
          exact ⟨data, descricao, raw_valor, valor, cat, heq, hval,
                 by rw [← h, if_neg hneg]⟩
  · simp at h

/-- Inversion for a successful Nubank row: the description and date cells are
present, and the transaction is built from the row's cells, with the
direction computed from the sign of the parsed amount. -/
theorem nubankRow_shape (kw : List (String × List String)) (o : GroqOracle)
    (d : DateOracle) (p : String) (fn : List String) (ln : Nat) (line : String)
    (t : TransacaoCategorizada)
    (h : nubankRow kw o d p fn ln line = .ok t) :
    ∃ rawValor valor categoria descricao data,
      getField fn (pySplit ',' line) "Valor" = some rawValor ∧
      pyFloat (pyReplace ',' '.' rawValor) = some valor ∧
      getField fn (pySplit ',' line) "Descrição" = some descricao ∧
      getField fn (pySplit ',' line) "Data" = some data ∧
      t = { descricao := descricao, valor := valor,
            tipo := if 0 < valor.mant then "Entrada" else "Saída",
            categoria := categoria,
            data_transacao := _formatar_data d data,
            id_transacao := getField fn (pySplit ',' line) "Identificador",
            portador := p } := by
  unfold nubankRow at h
  dsimp only at h
  split at h
  · simp at h
  · next rawValor hraw =>
    split at h
    · simp at h
    · next valor hval =>
      split at h
      · simp at h
      · next categoria hcl =>
        split at h
        · next descricao data hdesc hdata =>
          simp only [Except.ok.injEq] at h
          exact ⟨rawValor, valor, categoria, descricao, data, hraw, hval,
                 hdesc, hdata, h.symm⟩
        · simp at h

/-- Every transaction accumulated by the Itaú loop has its direction
computed from the sign of its amount. -/
theorem itauLoop_mem_tipo (kw : List (String × List String)) (o : GroqOracle)
    (d : DateOracle) (p : String) :
    ∀ (lines : List String) (ln : Nat) (res : List TransacaoCategorizada),
      itauLoop kw o d p ln lines = .ok res →
      ∀ t ∈ res, t.tipo = if 0 < t.valor.mant then "Entrada" else "Saída" := by
  intro lines
  induction lines with
  | nil =>
    intro ln res h t ht
    rw [itauLoop] at h
    obtain rfl : ([] : List TransacaoCategorizada) = res := by simpa using h
    simp at ht
  | cons line rest ih =>
    intro ln res h t ht
    rw [itauLoop] at h
    rcases hline : itauLine kw o d p ln line with e | ot
    · simp only [hline] at h
      simp at h
    · cases ot with
      | none =>
        simp only [hline] at h
        exact ih (ln + 1) res h t ht
      | some t0 =>
        simp only [hline] at h
        rcases hrest : itauLoop kw o d p (ln + 1) rest with e | ts <;>
          simp only [hrest] at h
        · simp at h
        · obtain rfl : t0 :: ts = res := by simpa using h
          rcases List.mem_cons.mp ht with rfl | hmem
          · obtain ⟨data, descricao, raw_valor, valor, cat, -, -, rfl⟩ :=
              itauLine_shape kw o d p ln line t hline
            rfl
          · exact ih (ln + 1) ts hrest t hmem

/-- Every transaction accumulated by the Nubank loop has its direction
computed from the sign of its amount. -/
theorem nubankLoop_mem_tipo (kw : List (String × List String)) (o : GroqOracle)
    (d : DateOracle) (p : String) (fn : List String) :
    ∀ (lines : List String) (ln : Nat) (res : List TransacaoCategorizada),
      nubankLoop kw o d p fn ln lines = .ok res →
      ∀ t ∈ res, t.tipo = if 0 < t.valor.mant then "Entrada" else "Saída" := by
  intro lines
  induction lines with
  | nil =>
    intro ln res h t ht
    rw [nubankLoop] at h
    obtain rfl : ([] : List TransacaoCategorizada) = res := by simpa using h
    simp at ht
  | cons line rest ih =>
    intro ln res h t ht
    rw [nubankLoop] at h
    split at h
    · exact ih (ln + 1) res h t ht
    · rcases hrow : nubankRow kw o d p fn ln line with e | t0 <;>
        simp only [hrow] at h
      · simp at h
      · rcases hrest : nubankLoop kw o d p fn (ln + 1) rest with e | ts <;>
          simp only [hrest] at h
        · simp at h
        · obtain rfl : t0 :: ts = res := by simpa using h
          rcases List.mem_cons.mp ht with rfl | hmem
          · obtain ⟨rawValor, valor, cat, descricao, data, -, -, -, -, rfl⟩ :=
              nubankRow_shape kw o d p fn ln line t hrow
            rfl
          · exact ih (ln + 1) ts hrest t hmem

/-- C2: in every successful invocation, in either format, a produced
transaction's direction is `"Entrada"` exactly when its amount is strictly
positive and `"Saída"` otherwise (zero included) — the direction is the
stated function of the amount alone. -/
theorem claimC2 (kw : List (String × List String)) (o : GroqOracle)
    (d : DateOracle) (banco : String) (lines : List String) (p : String)
    (res : List TransacaoCategorizada)
    (h : categorizar kw o d banco lines p = .ok res) :
    ∀ t ∈ res, t.tipo = if 0 < t.valor.toRat then "Entrada" else "Saída" := by
  intro t ht
  have key : t.tipo = if 0 < t.valor.mant then "Entrada" else "Saída" := by
    unfold categorizar at h
    split at h
    · simp at h
    · next resultado heq =>
      split at h
      · simp at h
      · have hres : resultado = res := by simpa using h
        rw [hres] at heq
        split at heq
        · exact itauLoop_mem_tipo kw o d p lines 1 res heq t ht
        · unfold nubankParse at heq
          split at heq
          · simp at heq
          · exact nubankLoop_mem_tipo kw o d p (nubankFieldnames lines)
              lines.tail 2 res heq t ht
  rw [key]
  exact if_congr (PyFloat.pos_toRat t.valor).symm rfl rfl

/-- Witness for C2 on a concrete mixed run (inflow and outflow rows). -/
theorem claimC2_witness :
    categorizar CATEGORY_KEYWORDS oracleOutros dateNone "itau"
      ["1/1;x;5", "2/1;y;-3,25"] "p" =
      .ok [{ descricao := "x", valor := ⟨5, 0⟩, tipo := "Entrada",
             categoria := "Outros", data_transacao := "1/1",
             id_transacao := none, portador := "p" },
           { descricao := "y", valor := ⟨-325, 2⟩, tipo := "Saída",
             categoria := "Outros", data_transacao := "2/1",
             id_transacao := none, portador := "p" }] ∧
    ∀ t ∈ [({ descricao := "x", valor := ⟨5, 0⟩, tipo := "Entrada",
              categoria := "Outros", data_transacao := "1/1",
              id_transacao := none, portador := "p" } : TransacaoCategorizada),
           { descricao := "y", valor := ⟨-325, 2⟩, tipo := "Saída",
             categoria := "Outros", data_transacao := "2/1",
             id_transacao := none, portador := "p" }],
      t.tipo = if 0 < t.valor.toRat then "Entrada" else "Saída" := by
  have h : categorizar CATEGORY_KEYWORDS oracleOutros dateNone "itau"
      ["1/1;x;5", "2/1;y;-3,25"] "p" =
      .ok [{ descricao := "x", valor := ⟨5, 0⟩, tipo := "Entrada",
             categoria := "Outros", data_transacao := "1/1",
             id_transacao := none, portador := "p" },
           { descricao := "y", valor := ⟨-325, 2⟩, tipo := "Saída",
             categoria := "Outros", data_transacao := "2/1",
             id_transacao := none, portador := "p" }] := by decide
  exact ⟨h, claimC2 CATEGORY_KEYWORDS oracleOutros dateNone "itau"
    ["1/1;x;5", "2/1;y;-3,25"] "p" _ h⟩

/-- C8 (amended): Format A descriptions are whitespace-trimmed (the parser
strips every split field before use), but Format B descriptions are taken
verbatim from the csv cell — `row['Descrição']` is never stripped. -/
theorem claimC8 :
    (∀ (kw : List (String × List String)) (o : GroqOracle) (d : DateOracle)
       (p : String) (ln : Nat) (line : String) (t : TransacaoCategorizada)
       (ra rb rc : String),
       pySplit ';' line = [ra, rb, rc] →
       itauLine kw o d p ln line = .ok (some t) →
       t.descricao = pyStrip rb) ∧
    (∀ (kw : List (String × List String)) (o : GroqOracle) (d : DateOracle)
       (p : String) (fn : List String) (ln : Nat) (line : String)
       (t : TransacaoCategorizada),
       nubankRow kw o d p fn ln line = .ok t →
       getField fn (pySplit ',' line) "Descrição" = some t.descricao) := by
  constructor
  · intro kw o d p ln line t ra rb rc hsplit h
    obtain ⟨data, descricao, raw_valor, valor, cat, heq, -, rfl⟩ :=
      itauLine_shape kw o d p ln line t h
    rw [hsplit] at heq
    simp only [List.map_cons, List.map_nil, List.cons.injEq, List.nil_eq] at heq
    exact heq.2.1.symm
  · intro kw o d p fn ln line t h
    obtain ⟨rawValor, valor, cat, descricao, data, -, -, hdesc, -, rfl⟩ :=
      nubankRow_shape kw o d p fn ln line t h
    exact hdesc

/-- Counterexample to C8 as stated: in Format B a description cell with
surrounding spaces reaches the output untrimmed. -/
theorem claimC8_counterexample :
    categorizar CATEGORY_KEYWORDS oracleOutros dateNone "nubank"
      ["Data,Descrição,Valor,Identificador", "2024-01-01, x ,5,abc"] "p" =
      .ok [{ descricao := " x ", valor := ⟨5, 0⟩, tipo := "Entrada",
             categoria := "Outros", data_transacao := "2024-01-01",
             id_transacao := some "abc", portador := "p" }] ∧
    pyStrip " x " = "x" ∧ (" x " : String) ≠ "x" :=
  ⟨by decide, by decide, by decide⟩

/-- Witness for the amended C8 at concrete lines in both formats. -/
theorem claimC8_witness :
    (∃ t : TransacaoCategorizada,
      itauLine CATEGORY_KEYWORDS oracleOutros dateNone "p" 1 "1/1; x ;5" =
        .ok (some t) ∧ t.descricao = pyStrip " x ") ∧
    (∃ t : TransacaoCategorizada,
      nubankRow CATEGORY_KEYWORDS oracleOutros dateNone "p"
        ["Data", "Descrição", "Valor", "Identificador"] 2 "1/1, x ,5,i" =
        .ok t ∧
      getField ["Data", "Descrição", "Valor", "Identificador"]
        (pySplit ',' "1/1, x ,5,i") "Descrição" = some t.descricao) := by
  constructor
  · refine ⟨{ descricao := "x", valor := ⟨5, 0⟩, tipo := "Entrada",
              categoria := "Outros", data_transacao := "1/1",
              id_transacao := none, portador := "p" }, by decide, ?_⟩
    exact claimC8.1 CATEGORY_KEYWORDS oracleOutros dateNone "p" 1 "1/1; x ;5"
      _ "1/1" " x " "5" (by decide) (by decide)
  · refine ⟨{ descricao := " x ", valor := ⟨5, 0⟩, tipo := "Entrada",
              categoria := "Outros", data_transacao := "1/1",
              id_transacao := some "i", portador := "p" }, by decide, ?_⟩
    exact claimC8.2 CATEGORY_KEYWORDS oracleOutros dateNone "p"
      ["Data", "Descrição", "Valor", "Identificador"] 2 "1/1, x ,5,i"
      _ (by decide)

/-- Splitting the Itaú loop after a successfully processed prefix: the suffix
is processed with the line counter advanced by the prefix length, and a
suffix failure aborts the whole loop. -/
theorem itauLoop_ok_append (kw : List (String × List String)) (o : GroqOracle)
    (d : DateOracle) (p : String) :
    ∀ (pre : List String) (ln : Nat) (r : List TransacaoCategorizada)
      (rest : List String),
      itauLoop kw o d p ln pre = .ok r →
      itauLoop kw o d p ln (pre ++ rest) =
        match itauLoop kw o d p (ln + pre.length) rest with
        | .error e => .error e
        | .ok ts => .ok (r ++ ts) := by
  intro pre
  induction pre with
  | nil =>
    intro ln r rest h
    rw [itauLoop] at h
    obtain rfl : ([] : List TransacaoCategorizada) = r := by simpa using h
    simp only [List.nil_append, List.length_nil, Nat.add_zero]
    rcases hr : itauLoop kw o d p ln rest with e | ts <;> simp [hr]
  | cons l pre ih =>
    intro ln r rest h
    rw [itauLoop] at h
    rw [List.cons_append, itauLoop]
    rcases hl : itauLine kw o d p ln l with e | ot
    · simp only [hl] at h
      simp at h
    · cases ot with
      | none =>
        simp only [hl] at h ⊢
        rw [ih (ln + 1) r rest h]
        have harith : ln + 1 + pre.length = ln + (l :: pre).length := by
          simp only [List.length_cons]
          omega
        rw [harith]
      | some t =>
        simp only [hl] at h ⊢
        rcases hp : itauLoop kw o d p (ln + 1) pre with e | r0
        · simp only [hp] at h
          simp at h
        · simp only [hp] at h
          obtain rfl : t :: r0 = r := by simpa using h
          rw [ih (ln + 1) r0 rest hp]
          have harith : ln + 1 + pre.length = ln + (l :: pre).length := by
            simp only [List.length_cons]
            omega
          rw [harith]
          rcases hr : itauLoop kw o d p (ln + (l :: pre).length) rest
            with e | ts <;> simp [hr]

/-- Splitting the Nubank loop after a successfully processed prefix of data
lines: the suffix is processed with the physical line counter advanced by the
prefix length, and a suffix failure aborts the whole loop. -/
theorem nubankLoop_ok_append (kw : List (String × List String)) (o : GroqOracle)
    (d : DateOracle) (p : String) (fn : List String) :
    ∀ (pre : List String) (ln : Nat) (r : List TransacaoCategorizada)
      (rest : List String),
      nubankLoop kw o d p fn ln pre = .ok r →
      nubankLoop kw o d p fn ln (pre ++ rest) =
        match nubankLoop kw o d p fn (ln + pre.length) rest with
        | .error e => .error e
        | .ok ts => .ok (r ++ ts) := by
  intro pre
  induction pre with
  | nil =>
    intro ln r rest h
    rw [nubankLoop] at h
    obtain rfl : ([] : List TransacaoCategorizada) = r := by simpa using h
    simp only [List.nil_append, List.length_nil, Nat.add_zero]
    rcases hr : nubankLoop kw o d p fn ln rest with e | ts <;> simp [hr]
  | cons l pre ih =>
    intro ln r rest h
    rw [nubankLoop] at h
    rw [List.cons_append, nubankLoop]
    split at h
    · next hblank =>
      rw [if_pos hblank]
      rw [ih (ln + 1) r rest h]
      have harith : ln + 1 + pre.length = ln + (l :: pre).length := by
        simp only [List.length_cons]
        omega
      rw [harith]
    · next hblank =>
      rw [if_neg hblank]
      rcases hl : nubankRow kw o d p fn ln l with e | t
      · simp only [hl] at h
        simp at h
      · simp only [hl] at h ⊢
        rcases hp : nubankLoop kw o d p fn (ln + 1) pre with e | r0
        · simp only [hp] at h
          simp at h
        · simp only [hp] at h
          obtain rfl : t :: r0 = r := by simpa using h
          rw [ih (ln + 1) r0 rest hp]
          have harith : ln + 1 + pre.length = ln + (l :: pre).length := by
            simp only [List.length_cons]
            omega
          rw [harith]
          rcases hr : nubankLoop kw o d p fn (ln + (l :: pre).length) rest
            with e | ts <;> simp [hr]

/-- C3: in either format, a row whose raw amount string fails numeric parsing
aborts the whole invocation — no transaction list is emitted — with a 400
error citing that row's 1-based line number (in Format B the physical csv
line number, header included), provided the rows before it processed
successfully. -/
theorem claimC3 :
    (∀ (kw : List (String × List String)) (o : GroqOracle) (d : DateOracle)
       (p : String) (pre : List String) (r : List TransacaoCategorizada)
       (line : String) (post : List String) (data descricao raw_valor : String),
       itauLoop kw o d p 1 pre = .ok r →
       (pySplit ';' line).map pyStrip = [data, descricao, raw_valor] →
       pyFloat (pyReplace ',' '.' raw_valor) = none →
       categorizar kw o d "itau" (pre ++ line :: post) p =
         .error (.httpError 400
           ("Valor inválido na linha " ++ toString (pre.length + 1)))) ∧
    (∀ (kw : List (String × List String)) (o : GroqOracle) (d : DateOracle)
       (p : String) (banco header : String) (pre : List String)
       (r : List TransacaoCategorizada) (line : String) (post : List String)
       (rawValor : String),
       pyLower banco ≠ "itau" →
       nubankFaltando (header :: (pre ++ line :: post)) = [] →
       nubankLoop kw o d p (nubankFieldnames (header :: (pre ++ line :: post)))
         2 pre = .ok r →
       line ≠ "" →
       getField (nubankFieldnames (header :: (pre ++ line :: post)))
         (pySplit ',' line) "Valor" = some rawValor →
       pyFloat (pyReplace ',' '.' rawValor) = none →
       categorizar kw o d banco (header :: (pre ++ line :: post)) p =
         .error (.httpError 400
           ("Valor inválido na linha " ++ toString (pre.length + 2)))) := by
  constructor
  · intro kw o d p pre r line post data descricao raw_valor hpre hsplit hbad
    have hline : itauLine kw o d p (pre.length + 1) line =
        .error (.httpError 400
          ("Valor inválido na linha " ++ toString (pre.length + 1))) := by
      unfold itauLine
      rw [hsplit]
      simp only [hbad]
    unfold categorizar
    rw [if_pos (by decide : pyLower "itau" = "itau")]
    rw [itauLoop_ok_append kw o d p pre 1 r (line :: post) hpre,
        Nat.add_comm 1 pre.length, itauLoop, hline]
  · intro kw o d p banco header pre r line post rawValor hbanco hfal hpre hne
      hval hbad
    have hrow : nubankRow kw o d p
        (nubankFieldnames (header :: (pre ++ line :: post)))
        (pre.length + 2) line =
        .error (.httpError 400
          ("Valor inválido na linha " ++ toString (pre.length + 2))) := by
      unfold nubankRow
      dsimp only
      simp only [hval, hbad]
    unfold categorizar
    rw [if_neg hbanco]
    unfold nubankParse
    rw [if_neg (show ¬ nubankFaltando (header :: (pre ++ line :: post)) ≠ []
          from fun hc => hc hfal)]
    simp only [List.tail_cons]
    rw [nubankLoop_ok_append kw o d p
          (nubankFieldnames (header :: (pre ++ line :: post)))
          pre 2 r (line :: post) hpre,
        Nat.add_comm 2 pre.length, nubankLoop, if_neg hne, hrow]

/-- Witness for C3: an unparsable amount in Format A line 1 and in Format B
physical line 2 (the first data row). -/
theorem claimC3_witness :
    categorizar CATEGORY_KEYWORDS oracleOutros dateNone "itau" ["a;b;zz"] "p" =
      .error (.httpError 400
        ("Valor inválido na linha " ++ toString (([] : List String).length + 1))) ∧
    categorizar CATEGORY_KEYWORDS oracleOutros dateNone "nubank"
      ["Data,Descrição,Valor,Identificador", "2024-01-01,x,zz,abc"] "p" =
      .error (.httpError 400
        ("Valor inválido na linha " ++ toString (([] : List String).length + 2))) :=
  ⟨claimC3.1 CATEGORY_KEYWORDS oracleOutros dateNone "p" [] [] "a;b;zz" []
     "a" "b" "zz" rfl (by decide) (by decide),
   claimC3.2 CATEGORY_KEYWORDS oracleOutros dateNone "p" "nubank"
     "Data,Descrição,Valor,Identificador" [] [] "2024-01-01,x,zz,abc" [] "zz"
     (by decide) (by decide) rfl (by decide) (by decide) (by decide)⟩

/-- When every line is skipped, the Itaú loop yields the empty batch. -/
theorem itauLoop_all_skip (kw : List (String × List String)) (o : GroqOracle)
    (d : DateOracle) (p : String) :
    ∀ (lines : List String) (ln : Nat),
      (∀ line ∈ lines, ((pySplit ';' line).map pyStrip).length ≠ 3) →
      itauLoop kw o d p ln lines = .ok [] := by
  intro lines
  induction lines with
  | nil => intro ln _; rfl
  | cons l rest ih =>
    intro ln h
    rw [itauLoop_cons_skip kw o d p ln l rest (h l (List.mem_cons_self l rest))]
    exact ih (ln + 1) fun line hm => h line (List.mem_cons_of_mem l hm)

/-- C10: an invocation in which no input line yields a transaction reaches
`csv.DictWriter(output, fieldnames=resultado[0].dict().keys())` with
`resultado` empty and dies on the uncaught `IndexError` — e.g. a Format A
file where every line's field count differs from 3, or a Format B file with
a valid header and no data rows. -/
theorem claimC10 :
    (∀ (kw : List (String × List String)) (o : GroqOracle) (d : DateOracle)
       (p : String) (lines : List String),
       (∀ line ∈ lines, ((pySplit ';' line).map pyStrip).length ≠ 3) →
       categorizar kw o d "itau" lines p = .error .indexError) ∧
    (∀ (kw : List (String × List String)) (o : GroqOracle) (d : DateOracle)
       (p : String) (banco header : String),
       pyLower banco ≠ "itau" →
       nubankFaltando [header] = [] →
       categorizar kw o d banco [header] p = .error .indexError) := by
  constructor
  · intro kw o d p lines h
    unfold categorizar
    rw [if_pos (by decide : pyLower "itau" = "itau")]
    rw [itauLoop_all_skip kw o d p lines 1 h]
    rfl
  · intro kw o d p banco header hb hfal
    unfold categorizar
    rw [if_neg hb]
    unfold nubankParse
    rw [if_neg (show ¬ nubankFaltando [header] ≠ [] from fun hc => hc hfal)]
    rfl

/-- Witness for C10: an all-skipped Format A file and a header-only Format B
file both die with the indexing error instead of an empty table. -/
theorem claimC10_witness :
    categorizar CATEGORY_KEYWORDS oracleOutros dateNone "itau"
      ["x;y", ""] "p" = .error .indexError ∧
    categorizar CATEGORY_KEYWORDS oracleOutros dateNone "nubank"
      ["Data,Descrição,Valor,Identificador"] "p" = .error .indexError :=
  ⟨claimC10.1 CATEGORY_KEYWORDS oracleOutros dateNone "p" ["x;y", ""]
     (by decide),
   claimC10.2 CATEGORY_KEYWORDS oracleOutros dateNone "p" "nubank"
     "Data,Descrição,Valor,Identificador" (by decide) (by decide)⟩

/-- The prompt depends on the keyword table only through its keys. -/
theorem buildPrompt_cong (kw1 kw2 : List (String × List String))
    (h : kw1.map Prod.fst = kw2.map Prod.fst) (descricao tipo : String) :
    buildPrompt kw1 descricao tipo = buildPrompt kw2 descricao tipo := by
  unfold buildPrompt
  rw [h]

/-- Classification depends on the keyword table only through its keys. -/
theorem classificar_cong (kw1 kw2 : List (String × List String))
    (h : kw1.map Prod.fst = kw2.map Prod.fst) :
    classificar_transacao kw1 = classificar_transacao kw2 := by
  funext o descricao tipo
  unfold classificar_transacao
  rw [buildPrompt_cong kw1 kw2 h]

/-- The Itaú line parser depends on the keyword table only through its keys. -/
theorem itauLine_cong (kw1 kw2 : List (String × List String))
    (h : kw1.map Prod.fst = kw2.map Prod.fst) :
    itauLine kw1 = itauLine kw2 := by
  funext o d p ln line
  unfold itauLine
  rw [classificar_cong kw1 kw2 h]

/-- The Itaú loop depends on the keyword table only through its keys. -/
theorem itauLoop_cong (kw1 kw2 : List (String × List String))
    (h : kw1.map Prod.fst = kw2.map Prod.fst) (o : GroqOracle) (d : DateOracle)
    (p : String) :
    ∀ (lines : List String) (ln : Nat),
      itauLoop kw1 o d p ln lines = itauLoop kw2 o d p ln lines := by
  intro lines
  induction lines with
  | nil => intro ln; rfl
  | cons l rest ih =>
    intro ln
    rw [itauLoop, itauLoop, itauLine_cong kw1 kw2 h]
    rcases hx : itauLine kw2 o d p ln l with e | ot
    · rfl
    · cases ot with
      | none => exact ih (ln + 1)
      | some t => rw [ih (ln + 1)]

/-- The Nubank row parser depends on the keyword table only through its keys. -/
theorem nubankRow_cong (kw1 kw2 : List (String × List String))
    (h : kw1.map Prod.fst = kw2.map Prod.fst) :
    nubankRow kw1 = nubankRow kw2 := by
  funext o d p fn ln line
  unfold nubankRow
  rw [classificar_cong kw1 kw2 h]

/-- The Nubank loop depends on the keyword table only through its keys. -/
theorem nubankLoop_cong (kw1 kw2 : List (String × List String))
    (h : kw1.map Prod.fst = kw2.map Prod.fst) (o : GroqOracle) (d : DateOracle)
    (p : String) (fn : List String) :
    ∀ (lines : List String) (ln : Nat),
      nubankLoop kw1 o d p fn ln lines = nubankLoop kw2 o d p fn ln lines := by
  intro lines
  induction lines with
  | nil => intro ln; rfl
  | cons l rest ih =>
    intro ln
    rw [nubankLoop, nubankLoop, nubankRow_cong kw1 kw2 h]
    by_cases hblank : l = ""
    · rw [if_pos hblank, if_pos hblank]
      exact ih (ln + 1)
    · rw [if_neg hblank, if_neg hblank]
      rcases hx : nubankRow kw2 o d p fn ln l with e | t
      · rfl
      · rw [ih (ln + 1)]

/-- The Nubank branch depends on the keyword table only through its keys. -/
theorem nubankParse_cong (kw1 kw2 : List (String × List String))
    (h : kw1.map Prod.fst = kw2.map Prod.fst) (o : GroqOracle) (d : DateOracle)
    (p : String) (lines : List String) :
    nubankParse kw1 o d p lines = nubankParse kw2 o d p lines := by
  unfold nubankParse
  split
  · rfl
  · exact nubankLoop_cong kw1 kw2 h o d p (nubankFieldnames lines) lines.tail 2

/-- C9: the keyword lists of the category-to-keywords table never influence
any output — two invocations that agree on everything else and on the KEYS
of the table (only the keyword lists may differ) produce identical results,
because only the keys reach the prompt and nothing else reads the table. -/
theorem claimC9 (kw1 kw2 : List (String × List String))
    (h : kw1.map Prod.fst = kw2.map Prod.fst) (o : GroqOracle) (d : DateOracle)
    (banco : String) (lines : List String) (p : String) :
    categorizar kw1 o d banco lines p = categorizar kw2 o d banco lines p := by
  unfold categorizar
  by_cases hb : pyLower banco = "itau"
  · rw [if_pos hb, if_pos hb, itauLoop_cong kw1 kw2 h o d p lines 1]
  · rw [if_neg hb, if_neg hb, nubankParse_cong kw1 kw2 h o d p lines]

/-- Witness for C9: emptying every keyword list changes nothing. -/
theorem claimC9_witness :
    CATEGORY_KEYWORDS.map Prod.fst = kwKeysOnly.map Prod.fst ∧
    categorizar CATEGORY_KEYWORDS oracleOutros dateNone "itau"
      ["1/1;x;5"] "p" =
    categorizar kwKeysOnly oracleOutros dateNone "itau" ["1/1;x;5"] "p" :=
  ⟨by decide,
   claimC9 CATEGORY_KEYWORDS kwKeysOnly (by decide) oracleOutros dateNone
     "itau" ["1/1;x;5"] "p"⟩

end ExtrairCategoria
